import Mathlib

/-!
Shallow embedding of `tcp_caohejing.c`, the "caohejing" TCP congestion-control
module, together with theorems checking the module's natural-language
specification against the code.

Machine integers are modelled as `Nat` (for the C unsigned types) and `Int`
(for the signed rate-sample fields), with explicit reductions modulo `2^32`
and `2^64` wherever the C arithmetic can wrap.  The Linux `win_minmax`
windowed-max filter, which the module calls through `minmax_reset` /
`minmax_running_max` / `minmax_get`, is embedded from its kernel
implementation (`lib/win_minmax.c`).
-/

namespace TcpCaohejing

/-- Modulus of `u32` arithmetic, `2^32`. -/
def U32 : Nat := 4294967296

/-- Modulus of `u64` arithmetic, `2^64`. -/
def U64 : Nat := 18446744073709551616

/-- `#define CAL_SCALE 8` -/
def CAL_SCALE : Nat := 8

/-- `#define CAL_UNIT (1 << CAL_SCALE)` -/
def CAL_UNIT : Nat := 2 ^ CAL_SCALE

/-- `#define BW_SCALE 24` -/
def BW_SCALE : Nat := 24

/-- `#define BW_UNIT (1 << BW_SCALE)` -/
def BW_UNIT : Nat := 2 ^ BW_SCALE

/-- `#define UP 0` -/
def UP : Nat := 0

/-- `#define DOWN 1` -/
def DOWN : Nat := 1

/-- `TCP_CA_Open` from the host kernel's congestion-state enum. -/
def TCP_CA_Open : Nat := 0

/-- `TCP_CA_Recovery` from the host kernel's congestion-state enum. -/
def TCP_CA_Recovery : Nat := 3

/-- `TCP_CA_Loss` from the host kernel's congestion-state enum. -/
def TCP_CA_Loss : Nat := 4

/-- `u32` subtraction `a - b` (wrapping). -/
def u32sub (a b : Nat) : Nat := (a % U32 + U32 - b % U32) % U32

/-- `u64` subtraction `a - b` (wrapping). -/
def u64sub (a b : Nat) : Nat := (a % U64 + U64 - b % U64) % U64

/-- Reinterpret a `u32` bit pattern as `s32`. -/
def s32of (n : Nat) : Int :=
  if n % U32 < 2 ^ 31 then (n % U32 : Int) else (n % U32 : Int) - (U32 : Int)

/-- Reinterpret a `u64` bit pattern as `s64`. -/
def s64of (n : Nat) : Int :=
  if n % U64 < 2 ^ 63 then (n % U64 : Int) else (n % U64 : Int) - (U64 : Int)

/-- Conversion of a signed C value to `u32` (two's complement truncation). -/
def u32of (x : Int) : Nat := (x % (U32 : Int)).toNat

/-- Conversion of a signed C value to `u64` (two's complement truncation). -/
def u64of (x : Int) : Nat := (x % (U64 : Int)).toNat

/-- `before(seq1, seq2)`, i.e. `(s32)(seq1 - seq2) < 0`. -/
def before (a b : Nat) : Bool := decide (s32of (u32sub a b) < 0)

/-- `tcp_stamp_us_delta(t1, t0) = max_t(s64, t1 - t0, 0)` on `u64` stamps. -/
def tcpStampUsDelta (t1 t0 : Nat) : Int := max (s64of (u64sub t1 t0)) 0

/-- One `{time, value}` entry of the kernel `struct minmax`. -/
structure MinmaxSample where
  t : Nat
  v : Nat
deriving Repr, DecidableEq

/-- The kernel `struct minmax`: three windowed samples. -/
structure Minmax where
  s0 : MinmaxSample
  s1 : MinmaxSample
  s2 : MinmaxSample
deriving Repr, DecidableEq

/-- `minmax_get`: the best (here: maximum) value in the window. -/
def minmaxGet (m : Minmax) : Nat := m.s0.v

/-- `minmax_reset(m, t, meas)`. -/
def minmaxReset (t v : Nat) : Minmax := ⟨⟨t, v⟩, ⟨t, v⟩, ⟨t, v⟩⟩

/-- `minmax_subwin_update` from `lib/win_minmax.c`. -/
def minmaxSubwinUpdate (m : Minmax) (win : Nat) (val : MinmaxSample) : Minmax :=
  let dt := u32sub val.t m.s0.t
  if win < dt then
    let m1 : Minmax := ⟨m.s1, m.s2, val⟩
    if win < u32sub val.t m1.s0.t then ⟨m1.s1, m1.s2, val⟩ else m1
  else if m.s1.t = m.s0.t ∧ win / 4 < dt then ⟨m.s0, val, val⟩
  else if m.s2.t = m.s1.t ∧ win / 2 < dt then ⟨m.s0, m.s1, val⟩
  else m

/-- `minmax_running_max(m, win, t, meas)` from `lib/win_minmax.c`. -/
def minmaxRunningMax (m : Minmax) (win t meas : Nat) : Minmax :=
  if m.s0.v ≤ meas ∨ win < u32sub t m.s2.t then minmaxReset t meas
  else
    let m1 : Minmax :=
      if m.s1.v ≤ meas then ⟨m.s0, ⟨t, meas⟩, ⟨t, meas⟩⟩
      else if m.s2.v ≤ meas then ⟨m.s0, m.s1, ⟨t, meas⟩⟩
      else m
    minmaxSubwinUpdate m1 win ⟨t, meas⟩

/-- `struct caohejing`, the per-connection state (the unused `rtt` field of the
C struct, which the module never reads or writes, is omitted). -/
structure Caohejing where
  gain : Nat
  state : Nat
  min_rtt_us : Nat
  rtt_cnt : Nat
  next_rtt_delivered : Nat
  prior_cwnd : Nat
  bw : Minmax
  curr_bw : Nat
  last_bw : Nat
  cycle_mstamp : Nat
  prev_ca_state : Nat
  packet_conservation : Bool
deriving Repr, DecidableEq

/-- The host-connection facts the module reads and the two fields it writes
(`snd_cwnd`, `sk_pacing_rate`), flattened from `tcp_sock` / `sock` /
`inet_connection_sock`. -/
structure Tcp where
  snd_cwnd : Nat
  snd_cwnd_clamp : Nat
  delivered : Nat
  delivered_mstamp : Nat
  mss_cache : Nat
  packets_in_flight : Nat
  sk_pacing_rate : Nat
  sk_max_pacing_rate : Nat
  sk_pacing_shift : Nat
  ca_state : Nat
deriving Repr, DecidableEq

/-- The fields of the kernel `struct rate_sample` the module reads.
`delivered`, `interval_us`, `rtt_us` and `losses` are signed in C. -/
structure RateSample where
  prior_delivered : Nat
  delivered : Int
  interval_us : Int
  rtt_us : Int
  losses : Int
  acked_sacked : Nat
deriving Repr, DecidableEq

/-- `tcp_caohejing_init`. -/
def caohejingInitState : Caohejing :=
  { gain := CAL_UNIT * 5 / 4
    state := UP
    min_rtt_us := 0x7fffffff
    prev_ca_state := TCP_CA_Open
    packet_conservation := false
    rtt_cnt := 0
    curr_bw := 0
    last_bw := 0
    prior_cwnd := 0
    bw := minmaxReset 0 0
    next_rtt_delivered := 0
    cycle_mstamp := 0 }

/-- `tcp_caohejing_state`: on `TCP_CA_Loss`, `snd_cwnd := packets_in_flight + 1`. -/
def caohejingSetState (tp : Tcp) (new_state : Nat) : Tcp :=
  if new_state = TCP_CA_Loss then
    { tp with snd_cwnd := (tp.packets_in_flight + 1) % U32 }
  else tp

/-- `tcp_caohejing_undo_cwnd`: `max_t(u32, 2, w->prior_cwnd)`. -/
def caohejingUndoCwnd (w : Caohejing) : Nat := max 2 w.prior_cwnd

/-- `tcp_caohejing_ssthresh`: snapshot `snd_cwnd` into `prior_cwnd`, return the
host's existing `snd_ssthresh`. -/
def caohejingSsthresh (w : Caohejing) (tp : Tcp) (snd_ssthresh : Nat) :
    Caohejing × Nat :=
  ({ w with prior_cwnd := tp.snd_cwnd }, snd_ssthresh)

/-- Lines 153-156: round advancement on `rs->prior_delivered` reaching
`w->next_rtt_delivered`. -/
def roundStep (w : Caohejing) (tp : Tcp) (rs : RateSample) : Caohejing :=
  if before rs.prior_delivered w.next_rtt_delivered then w
  else { w with next_rtt_delivered := tp.delivered, rtt_cnt := (w.rtt_cnt + 1) % U32 }

/-- Lines 158-159: `min_rtt_us` update. -/
def minRttStep (w : Caohejing) (rs : RateSample) : Caohejing :=
  if 0 < rs.rtt_us ∧ rs.rtt_us ≤ (w.min_rtt_us : Int) then
    { w with min_rtt_us := u32of rs.rtt_us }
  else w

/-- Lines 161-162: `bw = (u64)rs->delivered * BW_UNIT; do_div(bw, rs->interval_us)`.
`do_div` takes a `u32` divisor, so the `long` interval is truncated to 32 bits;
a zero divisor is a machine division by zero in C (totalised to `0` here, as
Lean's `Nat` division). -/
def sampleBw (rs : RateSample) : Nat :=
  u64of rs.delivered * BW_UNIT % U64 / u32of rs.interval_us

/-- Lines 163-166: feed the sample into the windowed-max filter if it exceeds
the filter's current maximum (the filter stores `u32` values, so the `u64`
bandwidth is truncated on insertion), and refresh `curr_bw`. -/
def bwStep (w : Caohejing) (rs : RateSample) : Caohejing :=
  let bw := sampleBw rs
  if minmaxGet w.bw < bw then
    let f := minmaxRunningMax w.bw 10 w.rtt_cnt (bw % U32)
    { w with bw := f, curr_bw := minmaxGet f }
  else w

/-- The boundary condition of `is_next_cycle_phase`: no window started yet, or
`tcp_stamp_us_delta(tp->delivered_mstamp, w->cycle_mstamp) > w->min_rtt_us`. -/
def cycleCond (w : Caohejing) (tp : Tcp) : Prop :=
  w.cycle_mstamp = 0 ∨ (w.min_rtt_us : Int) < tcpStampUsDelta tp.delivered_mstamp w.cycle_mstamp

instance (w : Caohejing) (tp : Tcp) : Decidable (cycleCond w tp) := by
  unfold cycleCond; infer_instance

/-- `is_next_cycle_phase` (lines 85-98): at a window boundary, restart the
cycle stamp, shift `curr_bw` into `last_bw` and capture the filter maximum. -/
def cycleStep (w : Caohejing) (tp : Tcp) : Bool × Caohejing :=
  if cycleCond w tp then
    (true, { w with cycle_mstamp := tp.delivered_mstamp % U64
                    last_bw := w.curr_bw
                    curr_bw := minmaxGet w.bw })
  else (false, w)

/-- Lines 171-193: the gain/phase transition, run only once the process-wide
`start` counter exceeds 3, on `bw = minmax_get(&w->bw)`. -/
def gainStep (start : Int) (w : Caohejing) : Caohejing :=
  if 3 < start then
    let bw := minmaxGet w.bw
    if w.state = UP then
      if 21 * w.last_bw % U64 < 20 * bw % U64 then
        { w with gain := CAL_UNIT * 5 / 4 }
      else { w with gain := CAL_UNIT * 3 / 4, state := DOWN }
    else if w.state = DOWN then
      if 20 * bw % U64 < 19 * w.last_bw % U64 then
        { w with gain := CAL_UNIT * 5 / 4, state := UP }
      else { w with gain := CAL_UNIT * 3 / 4 }
    else w
  else w

/-- `caohejing_min_tso_segs`: 1 below `1200000 >> 3` bytes/sec of pacing, else 2. -/
def minTsoSegs (tp : Tcp) : Nat :=
  if tp.sk_pacing_rate < 1200000 / 2 ^ 3 then 1 else 2

/-- `GSO_MAX_SIZE` (65536). -/
def GSO_MAX_SIZE : Nat := 65536

/-- `MAX_TCP_HEADER` = `128 + MAX_HEADER` for a typical kernel configuration. -/
def MAX_TCP_HEADER : Nat := 224

/-- `caohejing_tso_segs_goal`. -/
def tsoSegsGoal (tp : Tcp) : Nat :=
  let bytes := min (tp.sk_pacing_rate / 2 ^ tp.sk_pacing_shift)
                   (GSO_MAX_SIZE - 1 - MAX_TCP_HEADER)
  let segs := max (bytes / tp.mss_cache) (minTsoSegs tp)
  min segs 0x7F

/-- Lines 195-198: the congestion-window computation.  Note that the C code
multiplies `bdp` by the constant `CAL_UNIT` and shifts right by `CAL_SCALE`
(a no-op), not by the connection's `gain`. -/
def cwndCompute (bw : Nat) (w : Caohejing) (tp : Tcp) : Nat :=
  let bdp := bw * w.min_rtt_us % U64
  let c0 := max 2 ((bdp * CAL_UNIT % U64 / 2 ^ CAL_SCALE + (BW_UNIT - 1)) / BW_UNIT % U32)
  let c1 := (c0 + 3 * tsoSegsGoal tp) % U32
  let c2 := (c1 + 1) % U32
  c2 - c2 % 2

/-- Line 211: `cwnd = max_t(s32, cwnd - rs->losses, 1)` — the subtraction is
done in `u32`, reinterpreted as `s32` for the max. -/
def lossCwnd (cwnd : Nat) (losses : Int) : Nat :=
  (max (s32of (u32of ((cwnd : Int) - losses))) 1).toNat

/-- Lines 210-228: the conservative-mode adjustments (loss reduction, the
Recovery entry and exit edges, packet conservation).  `cwnd0` is the
`old_cwnd` snapshot taken at call entry; `prev_ca`/`ca` the previous and
current congestion states. -/
def conservationStep (w : Caohejing) (tp : Tcp) (rs : RateSample)
    (cwnd0 : Nat) (prev_ca ca : Nat) : Caohejing × Tcp :=
  let cwnd1 := if 0 < rs.losses then lossCwnd cwnd0 rs.losses else cwnd0
  let fly := (tp.packets_in_flight + rs.acked_sacked) % U32
  let step2 : Caohejing × Tcp × Nat :=
    if ca = TCP_CA_Recovery ∧ prev_ca ≠ TCP_CA_Recovery then
      ({ w with next_rtt_delivered := tp.delivered, packet_conservation := true },
       tp, fly)
    else if TCP_CA_Recovery ≤ prev_ca ∧ ca < TCP_CA_Recovery then
      ({ w with state := UP, gain := CAL_UNIT * 5 / 4, packet_conservation := false },
       { tp with snd_cwnd := max w.prior_cwnd fly }, cwnd1)
    else (w, tp, cwnd1)
  let w2 := step2.1
  let tp2 := step2.2.1
  let cwnd2 := step2.2.2
  if w2.packet_conservation then
    ({ w2 with state := DOWN, gain := CAL_UNIT * 3 / 4 },
     { tp2 with snd_cwnd := max cwnd2 fly })
  else (w2, tp2)

/-- `caohejing_rate_bytes_per_sec` (lines 100-109), `u64` arithmetic:
`rate *= mss; rate *= gain; rate >>= CAL_SCALE;
rate *= USEC_PER_SEC / 100 * (100 - 1); rate >>= BW_SCALE`. -/
def rateBytesPerSec (mss rate0 gain : Nat) : Nat :=
  let r1 := rate0 * mss % U64
  let r2 := r1 * gain % U64
  let r3 := r2 / 2 ^ CAL_SCALE
  let r4 := r3 * (1000000 / 100 * (100 - 1)) % U64
  r4 / 2 ^ BW_SCALE

/-- `caohejing_bw_to_pacing_rate` (lines 111-118): the rate clamped to
`sk_max_pacing_rate`.  The `bw` parameter is `u32` in C, hence the truncation. -/
def bwToPacingRate (tp : Tcp) (bw gain : Nat) : Nat :=
  min (rateBytesPerSec tp.mss_cache (bw % U32) gain) tp.sk_max_pacing_rate

/-- `tcp_caohejing_cong_control` (lines 143-237).  `conservation` and the
process-wide warm-up counter `start` (a C `static int` local) are threaded
explicitly; the call returns the new counter, the new per-connection state and
the updated host fields (`snd_cwnd`, `sk_pacing_rate`). -/
def congControl (conservation : Bool) (start : Int) (w0 : Caohejing)
    (tp0 : Tcp) (rs : RateSample) : Int × Caohejing × Tcp :=
  let prev_ca := w0.prev_ca_state
  let ca := tp0.ca_state
  let old_cwnd := tp0.snd_cwnd
  let w1 := minRttStep (roundStep w0 tp0 rs) rs
  let w2 := bwStep w1 rs
  let cyc := cycleStep w2 tp0
  let is_next := cyc.1
  let w3 := cyc.2
  let bw := minmaxGet w3.bw
  let w4 := gainStep start w3
  let start1 := start + 1
  let tp1 := { tp0 with snd_cwnd := cwndCompute bw w4 tp0 }
  let w5 := if is_next then { w4 with rtt_cnt := 0, bw := minmaxReset 0 0 } else w4
  let wtp := if conservation then conservationStep w5 tp1 rs old_cwnd prev_ca ca
             else (w5, tp1)
  let w6 := wtp.1
  let tp2 := wtp.2
  let w7 := { w6 with prev_ca_state := ca % 2 ^ 3 }
  let tp3 := { tp2 with sk_pacing_rate := bwToPacingRate tp2 bw w7.gain }
  let tp4 := { tp3 with snd_cwnd := min tp3.snd_cwnd tp3.snd_cwnd_clamp }
  (start1, w7, tp4)

/-!  Definitions taken from the specification's wording, used to compare the
code against the spec's formulas. -/

/-- The gain/phase transition rule as the spec states it (§4.3), as a function
of the phase and of the two bandwidths the rule compares: in `PROBE_UP` remain
with gain `1.25×` if `20*bw > 21*last_bw`, else switch to `DRAIN_DOWN` with
gain `0.75×`; in `DRAIN_DOWN` switch back to `PROBE_UP` if `19*last_bw >
20*bw`, else remain.  Returns the `(gain, phase)` pair after the transition. -/
def gainTransition (st bwv last : Nat) : Nat × Nat :=
  if st = UP then
    if 21 * last < 20 * bwv then (CAL_UNIT * 5 / 4, UP) else (CAL_UNIT * 3 / 4, DOWN)
  else if 20 * bwv < 19 * last then (CAL_UNIT * 5 / 4, UP)
  else (CAL_UNIT * 3 / 4, DOWN)

/-- The congestion-window formula as the spec states it: `bdp = bw *
min_rtt_us`, base `cwnd = max(2, ceil(bdp * gain / UNIT / BW_UNIT))`, plus 3×
the TSO-segments goal, rounded up to the nearest even number. -/
def claimCwnd (bwv minrtt gain tso : Nat) : Nat :=
  let bdp := bwv * minrtt
  let base := max 2 ((bdp * gain + (CAL_UNIT * BW_UNIT - 1)) / (CAL_UNIT * BW_UNIT))
  let c := base + 3 * tso
  c + c % 2

/-- The pacing-rate formula as the spec states it (§4.5), in exact integer
arithmetic: `((bw * mss * gain) >> 8) * (USEC_PER_SEC * 99 / 100) >> 24`. -/
def specRate (bwv mss gain : Nat) : Nat :=
  bwv * mss * gain / 2 ^ 8 * (1000000 * 99 / 100) / 2 ^ 24

/-!  Concrete host states and rate samples used by the closed evaluations. -/

/-- A host-state fixture: 1460-byte MSS, 5 packets in flight, even cwnd clamp,
unbounded pacing cap, delivery stamp 1000 µs. -/
def tpEx : Tcp :=
  { snd_cwnd := 10
    snd_cwnd_clamp := 10000
    delivered := 1
    delivered_mstamp := 1000
    mss_cache := 1460
    packets_in_flight := 5
    sk_pacing_rate := 0
    sk_max_pacing_rate := U64 - 1
    sk_pacing_shift := 10
    ca_state := TCP_CA_Open }

/-- A rate sample delivering 1 unit in 1 µs with a 100 µs RTT. -/
def rsEx : RateSample :=
  { prior_delivered := 0, delivered := 1, interval_us := 1, rtt_us := 100,
    losses := 0, acked_sacked := 0 }

/-- A rate sample with no delivery (bandwidth 0) and a 100 µs RTT. -/
def rsZero : RateSample :=
  { prior_delivered := 0, delivered := 0, interval_us := 1, rtt_us := 100,
    losses := 0, acked_sacked := 0 }

/-- A degenerate rate sample with a negative interval, as the kernel produces
when no valid interval is available. -/
def rsNegInterval : RateSample :=
  { prior_delivered := 0, delivered := 1000000000, interval_us := -1, rtt_us := 0,
    losses := 0, acked_sacked := 0 }

/-- The fixture with an odd congestion-window clamp of 1. -/
def tpClampOne : Tcp := { tpEx with snd_cwnd_clamp := 1 }

/-- The fixture entering Recovery with 10 packets in flight. -/
def tpRecovery : Tcp := { tpEx with ca_state := TCP_CA_Recovery, packets_in_flight := 10 }

/-- The example sample with 2 acked+SACKed packets. -/
def rsAcked2 : RateSample := { rsEx with acked_sacked := 2 }

/-- The example sample with 1 acked+SACKed packet. -/
def rsAcked1 : RateSample := { rsEx with acked_sacked := 1 }

/-- A connection state whose previous congestion state was Recovery, with a
`prior_cwnd` snapshot of 20. -/
def wRecovered : Caohejing :=
  { caohejingInitState with prev_ca_state := TCP_CA_Recovery, prior_cwnd := 20 }

/-- The fixture with a (type-level) 64 MiB MSS, exercising 64-bit overflow of
the pacing multiply chain. -/
def tpWideMss : Tcp := { tpEx with mss_cache := 67108864 }

/-- The fixture with the delivery stamp advanced by 50 µs (less than the
100 µs `min_rtt_us`, so no cycle boundary). -/
def tpLater : Tcp := { tpEx with delivered_mstamp := 1050 }

/-- A connection state mid-cycle: the window started at stamp 1000 and
`min_rtt_us` is 100 µs. -/
def wMid : Caohejing :=
  { caohejingInitState with cycle_mstamp := 1000, min_rtt_us := 100 }

/-- Warm-up trace: `n` cong_control calls from a fresh connection and a fresh
process-wide counter, all with the zero-bandwidth sample. -/
def warmTrace : Nat → Int × Caohejing × Tcp
  | 0 => (0, caohejingInitState, tpEx)
  | n + 1 =>
    let p := warmTrace n
    congControl false p.1 p.2.1 p.2.2 rsZero

/-- Probe trace: a first call delivering bandwidth `2^24` (so `curr_bw` and
`last_bw` are captured at the cycle boundary and the filter is then reset),
followed by zero-bandwidth calls with an unchanged delivery stamp. -/
def probeTrace : Nat → Int × Caohejing × Tcp
  | 0 => (0, caohejingInitState, tpEx)
  | 1 => congControl false 0 caohejingInitState tpEx rsEx
  | n + 2 =>
    let p := probeTrace (n + 1)
    congControl false p.1 p.2.1 p.2.2 rsZero

/-- First call of the mid-window scenario: zero bandwidth, starts the cycle
window at stamp 1000. -/
def midWindowCall1 : Int × Caohejing × Tcp :=
  congControl false 0 caohejingInitState tpEx rsZero

/-- Second call of the mid-window scenario: 50 µs later (inside the window),
with a sample that raises the filter maximum. -/
def midWindowCall2 : Int × Caohejing × Tcp :=
  congControl false midWindowCall1.1 midWindowCall1.2.1 tpLater rsEx

/-!  Theorems.  First, field-preservation lemmas for the individual steps of
`congControl`, used to push projections through the call. -/

set_option maxRecDepth 100000

lemma roundStep_gain (w : Caohejing) (tp : Tcp) (rs : RateSample) :
    (roundStep w tp rs).gain = w.gain := by unfold roundStep; split <;> rfl

lemma roundStep_state (w : Caohejing) (tp : Tcp) (rs : RateSample) :
    (roundStep w tp rs).state = w.state := by unfold roundStep; split <;> rfl

lemma roundStep_min_rtt (w : Caohejing) (tp : Tcp) (rs : RateSample) :
    (roundStep w tp rs).min_rtt_us = w.min_rtt_us := by unfold roundStep; split <;> rfl

lemma roundStep_bw (w : Caohejing) (tp : Tcp) (rs : RateSample) :
    (roundStep w tp rs).bw = w.bw := by unfold roundStep; split <;> rfl

lemma roundStep_curr_bw (w : Caohejing) (tp : Tcp) (rs : RateSample) :
    (roundStep w tp rs).curr_bw = w.curr_bw := by unfold roundStep; split <;> rfl

lemma roundStep_last_bw (w : Caohejing) (tp : Tcp) (rs : RateSample) :
    (roundStep w tp rs).last_bw = w.last_bw := by unfold roundStep; split <;> rfl

lemma roundStep_prior_cwnd (w : Caohejing) (tp : Tcp) (rs : RateSample) :
    (roundStep w tp rs).prior_cwnd = w.prior_cwnd := by unfold roundStep; split <;> rfl

lemma minRttStep_gain (w : Caohejing) (rs : RateSample) :
    (minRttStep w rs).gain = w.gain := by unfold minRttStep; split <;> rfl

lemma minRttStep_state (w : Caohejing) (rs : RateSample) :
    (minRttStep w rs).state = w.state := by unfold minRttStep; split <;> rfl

lemma minRttStep_bw (w : Caohejing) (rs : RateSample) :
    (minRttStep w rs).bw = w.bw := by unfold minRttStep; split <;> rfl

lemma minRttStep_curr_bw (w : Caohejing) (rs : RateSample) :
    (minRttStep w rs).curr_bw = w.curr_bw := by unfold minRttStep; split <;> rfl

lemma minRttStep_last_bw (w : Caohejing) (rs : RateSample) :
    (minRttStep w rs).last_bw = w.last_bw := by unfold minRttStep; split <;> rfl

lemma minRttStep_prior_cwnd (w : Caohejing) (rs : RateSample) :
    (minRttStep w rs).prior_cwnd = w.prior_cwnd := by unfold minRttStep; split <;> rfl

lemma bwStep_gain (w : Caohejing) (rs : RateSample) :
    (bwStep w rs).gain = w.gain := by simp only [bwStep]; split <;> rfl

lemma bwStep_state (w : Caohejing) (rs : RateSample) :
    (bwStep w rs).state = w.state := by simp only [bwStep]; split <;> rfl

lemma bwStep_min_rtt (w : Caohejing) (rs : RateSample) :
    (bwStep w rs).min_rtt_us = w.min_rtt_us := by simp only [bwStep]; split <;> rfl

lemma bwStep_last_bw (w : Caohejing) (rs : RateSample) :
    (bwStep w rs).last_bw = w.last_bw := by simp only [bwStep]; split <;> rfl

lemma bwStep_prior_cwnd (w : Caohejing) (rs : RateSample) :
    (bwStep w rs).prior_cwnd = w.prior_cwnd := by simp only [bwStep]; split <;> rfl

lemma cycleStep_gain (w : Caohejing) (tp : Tcp) :
    (cycleStep w tp).2.gain = w.gain := by unfold cycleStep; split <;> rfl

lemma cycleStep_state (w : Caohejing) (tp : Tcp) :
    (cycleStep w tp).2.state = w.state := by unfold cycleStep; split <;> rfl

lemma cycleStep_min_rtt (w : Caohejing) (tp : Tcp) :
    (cycleStep w tp).2.min_rtt_us = w.min_rtt_us := by unfold cycleStep; split <;> rfl

lemma cycleStep_bw (w : Caohejing) (tp : Tcp) :
    (cycleStep w tp).2.bw = w.bw := by unfold cycleStep; split <;> rfl

lemma cycleStep_prior_cwnd (w : Caohejing) (tp : Tcp) :
    (cycleStep w tp).2.prior_cwnd = w.prior_cwnd := by unfold cycleStep; split <;> rfl

lemma gainStep_min_rtt (s : Int) (w : Caohejing) :
    (gainStep s w).min_rtt_us = w.min_rtt_us := by
  simp only [gainStep]
  repeat' split
  all_goals rfl

lemma gainStep_bw (s : Int) (w : Caohejing) :
    (gainStep s w).bw = w.bw := by
  simp only [gainStep]
  repeat' split
  all_goals rfl

lemma gainStep_curr_bw (s : Int) (w : Caohejing) :
    (gainStep s w).curr_bw = w.curr_bw := by
  simp only [gainStep]
  repeat' split
  all_goals rfl

lemma gainStep_last_bw (s : Int) (w : Caohejing) :
    (gainStep s w).last_bw = w.last_bw := by
  simp only [gainStep]
  repeat' split
  all_goals rfl

lemma gainStep_prior_cwnd (s : Int) (w : Caohejing) :
    (gainStep s w).prior_cwnd = w.prior_cwnd := by
  simp only [gainStep]
  repeat' split
  all_goals rfl

lemma conservationStep_min_rtt (w : Caohejing) (tp : Tcp) (rs : RateSample)
    (c p q : Nat) : (conservationStep w tp rs c p q).1.min_rtt_us = w.min_rtt_us := by
  simp only [conservationStep]
  repeat' split
  all_goals rfl

lemma conservationStep_curr_bw (w : Caohejing) (tp : Tcp) (rs : RateSample)
    (c p q : Nat) : (conservationStep w tp rs c p q).1.curr_bw = w.curr_bw := by
  simp only [conservationStep]
  repeat' split
  all_goals rfl

lemma conservationStep_last_bw (w : Caohejing) (tp : Tcp) (rs : RateSample)
    (c p q : Nat) : (conservationStep w tp rs c p q).1.last_bw = w.last_bw := by
  simp only [conservationStep]
  repeat' split
  all_goals rfl

/-- The `min_rtt_us` stored by a call is exactly the one produced by the
round/min-RTT update at the top of the call: no later step writes it. -/
lemma congControl_min_rtt (cons : Bool) (s : Int) (w : Caohejing) (tp : Tcp)
    (rs : RateSample) :
    (congControl cons s w tp rs).2.1.min_rtt_us
      = (minRttStep (roundStep w tp rs) rs).min_rtt_us := by
  cases cons <;>
    simp [congControl, bwStep_min_rtt, cycleStep_min_rtt, gainStep_min_rtt,
      conservationStep_min_rtt, apply_ite Caohejing.min_rtt_us, ite_self]

/-- With conservative mode disabled, the cwnd stored by a call is the computed
window clamped to `snd_cwnd_clamp`. -/
lemma congControl_cwnd_noconsv (s : Int) (w : Caohejing) (tp : Tcp)
    (rs : RateSample) :
    (congControl false s w tp rs).2.2.snd_cwnd
      = min (cwndCompute
               (minmaxGet (cycleStep (bwStep (minRttStep (roundStep w tp rs) rs) rs) tp).2.bw)
               (gainStep s (cycleStep (bwStep (minRttStep (roundStep w tp rs) rs) rs) tp).2) tp)
            tp.snd_cwnd_clamp := rfl

/-- The computed window of lines 195-198 is always even, and nonzero values
are at least 2. -/
lemma evenFloor (m : Nat) : (m - m % 2) % 2 = 0 ∧ (m - m % 2 ≠ 0 → 2 ≤ m - m % 2) := by
  omega

lemma cwndCompute_even (bwv : Nat) (w : Caohejing) (tp : Tcp) :
    cwndCompute bwv w tp % 2 = 0 ∧ (cwndCompute bwv w tp ≠ 0 → 2 ≤ cwndCompute bwv w tp) := by
  unfold cwndCompute
  exact evenFloor _

/-- C1: the spec says the base cwnd is `max(2, ceil(bdp * gain / UNIT /
BW_UNIT))`, but line 196 multiplies `bdp` by the constant `CAL_UNIT` and
shifts right by `CAL_SCALE` — an exact no-op — so the gain is never applied
to the window.  On the first call after init with a sample of bandwidth
`2^24` (delivered 1 in 1 µs) and RTT 100 µs, the gain is 320, the
TSO-segments goal is 1, and the code stores cwnd 104 (base 100), while the
spec's formula gives 128 (base 125 = ceil(1.25 · 100)). -/
theorem cwnd_formula_drops_gain :
    (congControl false 0 caohejingInitState tpEx rsEx).2.2.snd_cwnd = 104 ∧
    (congControl false 0 caohejingInitState tpEx rsEx).2.1.gain = 320 ∧
    (congControl false 0 caohejingInitState tpEx rsEx).2.1.min_rtt_us = 100 ∧
    tsoSegsGoal tpEx = 1 ∧
    claimCwnd 16777216 100 320 1 = 128 ∧ (104 : Nat) ≠ 128 := by decide

/-- C2: lines 161-162 perform `do_div` unconditionally — there is no guard for
a zero or negative `interval_us`.  With `interval_us = -1` (truncated to
`2^32 - 1` as `do_div`'s u32 divisor) and one gigabyte delivered, the division
is performed and the bandwidth step rewrites both the filter and `curr_bw`
(to 3906250), so the estimator state is not left unchanged.  (With
`interval_us = 0` the unguarded `do_div` is a machine division by zero.) -/
theorem bw_division_unguarded :
    rsNegInterval.interval_us < 0 ∧
    sampleBw rsNegInterval = 3906250 ∧
    (bwStep caohejingInitState rsNegInterval).curr_bw = 3906250 ∧
    minmaxGet (bwStep caohejingInitState rsNegInterval).bw = 3906250 ∧
    caohejingInitState.curr_bw = 0 ∧
    minmaxGet caohejingInitState.bw = 0 := by decide

/-- C3 counterexample: the code gates the transition on `start > 3` with a
post-increment, so the warm-up covers the first FOUR calls, not three.  On the
4th call of `warmTrace` the transition rule (which, on filter max 0 and
`last_bw` 0, would move to DRAIN_DOWN with gain 192) is still not evaluated:
gain stays 320 and the phase stays PROBE_UP. -/
theorem warmup_covers_fourth_call :
    (warmTrace 3).1 = 3 ∧
    (warmTrace 3).2.1.state = UP ∧
    minmaxGet (warmTrace 3).2.1.bw = 0 ∧
    (warmTrace 3).2.1.last_bw = 0 ∧
    gainTransition UP 0 0 = (CAL_UNIT * 3 / 4, DOWN) ∧
    (warmTrace 4).2.1.gain = CAL_UNIT * 5 / 4 ∧
    (warmTrace 4).2.1.state = UP := by decide

/-- C4 counterexample: with the host's cwnd clamp set to 1 the value stored at
the end of the call is `min(104, 1) = 1` — odd and below 2. -/
theorem cwnd_clamp_defeats_evenness :
    (congControl false 0 caohejingInitState tpClampOne rsEx).2.2.snd_cwnd = 1 ∧
    (1 : Nat) % 2 = 1 ∧ (1 : Nat) < 2 := by decide

/-- C5 counterexample: on the second call of the mid-window scenario no
boundary event occurs (the cycle stamp stays 1000 instead of taking the call's
delivery stamp 1050), yet line 165 rewrites `curr_bw` from 0 to `2^24` because
the sample raised the filter maximum. -/
theorem curr_bw_written_mid_window :
    midWindowCall1.2.1.cycle_mstamp = 1000 ∧
    midWindowCall2.2.1.cycle_mstamp = 1000 ∧
    tpLater.delivered_mstamp = 1050 ∧
    midWindowCall1.2.1.curr_bw = 0 ∧
    midWindowCall2.2.1.curr_bw = 16777216 ∧
    midWindowCall1.2.1.last_bw = midWindowCall2.2.1.last_bw := by decide

/-- C6 counterexample: after the 5th call of `probeTrace` the connection is in
DRAIN_DOWN with `curr_bw = last_bw = 2^24` but filter maximum 0 (the filter
was reset at the cycle boundary).  The claim's rule on `curr_bw` says remain
DRAIN_DOWN with gain 192 (`19·last_bw > 20·curr_bw` is false), but the 6th
call — past warm-up, with no new boundary — switches to PROBE_UP with gain
320 because line 182 compares against the filter maximum `bw = 0`, not
`curr_bw`. -/
theorem gain_rule_reads_filter_not_curr_bw :
    (3 : Int) < (probeTrace 5).1 ∧
    (probeTrace 5).2.1.state = DOWN ∧
    (probeTrace 5).2.1.curr_bw = 16777216 ∧
    (probeTrace 5).2.1.last_bw = 16777216 ∧
    minmaxGet (probeTrace 5).2.1.bw = 0 ∧
    gainTransition DOWN (probeTrace 5).2.1.curr_bw (probeTrace 5).2.1.last_bw
      = (CAL_UNIT * 3 / 4, DOWN) ∧
    (probeTrace 6).2.1.state = UP ∧
    (probeTrace 6).2.1.gain = CAL_UNIT * 5 / 4 := by decide

/-- C3 (amended): the warm-up covers the first FOUR cong_control calls — the
transition is gated on `start > 3` and `start` is incremented after the check —
not the first three.  While the process-wide counter is at most 3 the
gain-transition step is the identity, so (with conservative mode disabled, so
that the recovery overrides cannot fire) gain and phase are unchanged by the
call; the counter is a single `static` shared by every connection, incremented
once per call whatever the connection state. -/
theorem warmup_first_four_calls (cons : Bool) (s : Int) (w : Caohejing)
    (tp : Tcp) (rs : RateSample) (h : s ≤ 3) :
    (congControl cons s w tp rs).1 = s + 1 ∧
    gainStep s w = w ∧
    ((congControl false s w tp rs).2.1.gain = w.gain ∧
      (congControl false s w tp rs).2.1.state = w.state) := by
  have hg : ∀ v : Caohejing, gainStep s v = v := fun v => by
    unfold gainStep
    rw [if_neg (by omega)]
  refine ⟨rfl, hg w, ?_, ?_⟩
  · simp [congControl, hg, bwStep_gain, cycleStep_gain, minRttStep_gain, roundStep_gain,
      apply_ite Caohejing.gain, ite_self]
  · simp [congControl, hg, bwStep_state, cycleStep_state, minRttStep_state, roundStep_state,
      apply_ite Caohejing.state, ite_self]

/-- C3 witness: the amended statement at the first call of a fresh process. -/
theorem warmup_first_four_calls_witness :
    (0 : Int) ≤ 3 ∧
    ((congControl false 0 caohejingInitState tpEx rsZero).1 = 0 + 1 ∧
     gainStep 0 caohejingInitState = caohejingInitState ∧
     ((congControl false 0 caohejingInitState tpEx rsZero).2.1.gain
          = caohejingInitState.gain ∧
      (congControl false 0 caohejingInitState tpEx rsZero).2.1.state
          = caohejingInitState.state)) :=
  ⟨by decide, warmup_first_four_calls false 0 caohejingInitState tpEx rsZero (by decide)⟩

/-- C4 (amended): with conservative mode disabled, the value stored in
`snd_cwnd` is the computed window clamped to `snd_cwnd_clamp`; the computed
window is always even and, whenever it is nonzero (its 32-bit computation can
only produce 0 by wrapping exactly to `2^32`), at least 2 — so with an even
clamp that is at least 2 the stored cwnd is even and at least 2. -/
theorem stored_cwnd_even_and_at_least_two (s : Int) (w : Caohejing) (tp : Tcp)
    (rs : RateSample)
    (h1 : tp.snd_cwnd_clamp % 2 = 0) (h2 : 2 ≤ tp.snd_cwnd_clamp)
    (h3 : cwndCompute
            (minmaxGet (cycleStep (bwStep (minRttStep (roundStep w tp rs) rs) rs) tp).2.bw)
            (gainStep s (cycleStep (bwStep (minRttStep (roundStep w tp rs) rs) rs) tp).2)
            tp ≠ 0) :
    (congControl false s w tp rs).2.2.snd_cwnd % 2 = 0 ∧
    2 ≤ (congControl false s w tp rs).2.2.snd_cwnd := by
  rw [congControl_cwnd_noconsv]
  obtain ⟨he1, he2⟩ := cwndCompute_even
    (minmaxGet (cycleStep (bwStep (minRttStep (roundStep w tp rs) rs) rs) tp).2.bw)
    (gainStep s (cycleStep (bwStep (minRttStep (roundStep w tp rs) rs) rs) tp).2) tp
  have := he2 h3
  omega

/-- C4 witness: the amended statement on the example call. -/
theorem stored_cwnd_even_and_at_least_two_witness :
    tpEx.snd_cwnd_clamp % 2 = 0 ∧ 2 ≤ tpEx.snd_cwnd_clamp ∧
    ((congControl false 0 caohejingInitState tpEx rsEx).2.2.snd_cwnd % 2 = 0 ∧
      2 ≤ (congControl false 0 caohejingInitState tpEx rsEx).2.2.snd_cwnd) :=
  ⟨by decide, by decide,
    stored_cwnd_even_and_at_least_two 0 caohejingInitState tpEx rsEx
      (by decide) (by decide) (by decide)⟩

/-- C5 (amended): `last_bw` is replaced only at window-boundary events: on a
call with no boundary it is unchanged.  `curr_bw` is likewise unchanged at a
boundary-free call provided the sample does not raise the filter maximum —
but (per the counterexample) it IS rewritten mid-window when the sample
exceeds the filter maximum. -/
theorem last_bw_replaced_only_at_boundary (cons : Bool) (s : Int) (w : Caohejing)
    (tp : Tcp) (rs : RateSample)
    (hnb : ¬ cycleCond (bwStep (minRttStep (roundStep w tp rs) rs) rs) tp) :
    (congControl cons s w tp rs).2.1.last_bw = w.last_bw ∧
    (¬ minmaxGet w.bw < sampleBw rs →
      (congControl cons s w tp rs).2.1.curr_bw = w.curr_bw) := by
  have hcyc : cycleStep (bwStep (minRttStep (roundStep w tp rs) rs) rs) tp
      = (false, bwStep (minRttStep (roundStep w tp rs) rs) rs) := by
    unfold cycleStep
    rw [if_neg hnb]
  constructor
  · cases cons <;>
      simp [congControl, hcyc, gainStep_last_bw, conservationStep_last_bw,
        bwStep_last_bw, minRttStep_last_bw, roundStep_last_bw,
        apply_ite Caohejing.last_bw, ite_self]
  · intro hno
    have hb : minmaxGet (minRttStep (roundStep w tp rs) rs).bw = minmaxGet w.bw := by
      rw [minRttStep_bw, roundStep_bw]
    have hbw : bwStep (minRttStep (roundStep w tp rs) rs) rs
        = minRttStep (roundStep w tp rs) rs := by
      simp only [bwStep]
      rw [if_neg (by rw [hb]; exact hno)]
    rw [hbw] at hcyc
    cases cons <;>
      simp [congControl, hcyc, hbw, gainStep_curr_bw, conservationStep_curr_bw,
        minRttStep_curr_bw, roundStep_curr_bw, apply_ite Caohejing.curr_bw, ite_self]

/-- C5 witness: a mid-window call with a zero-bandwidth sample leaves both
`last_bw` and `curr_bw` unchanged. -/
theorem last_bw_replaced_only_at_boundary_witness :
    ¬ cycleCond (bwStep (minRttStep (roundStep wMid tpLater rsZero) rsZero) rsZero) tpLater ∧
    ¬ minmaxGet wMid.bw < sampleBw rsZero ∧
    ((congControl false 0 wMid tpLater rsZero).2.1.last_bw = wMid.last_bw ∧
     (congControl false 0 wMid tpLater rsZero).2.1.curr_bw = wMid.curr_bw) :=
  ⟨by decide, by decide,
    (last_bw_replaced_only_at_boundary false 0 wMid tpLater rsZero (by decide)).1,
    (last_bw_replaced_only_at_boundary false 0 wMid tpLater rsZero (by decide)).2 (by decide)⟩

/-- C6 (amended): after warm-up the per-call transition follows the spec's
rule, but on `bw = minmax_get(&w->bw)` — the filter's current maximum as read
after the boundary step — in place of `curr_bw` (the two agree except right
after a cycle reset, when the filter is zeroed but `curr_bw` keeps the old
maximum): in PROBE_UP remain with gain 320 iff `20·bw > 21·last_bw`, else
DRAIN_DOWN with 192; in DRAIN_DOWN return to PROBE_UP with 320 iff
`19·last_bw > 20·bw`, else remain with 192. -/
theorem gain_rule_after_warmup (s : Int) (w : Caohejing)
    (h : 3 < s) (hst : w.state = UP ∨ w.state = DOWN)
    (hbw : minmaxGet w.bw < U32) (hlast : w.last_bw < U32) :
    ((gainStep s w).gain, (gainStep s w).state)
      = gainTransition w.state (minmaxGet w.bw) w.last_bw := by
  have e1 : 21 * w.last_bw % U64 = 21 * w.last_bw :=
    Nat.mod_eq_of_lt (by unfold U32 U64 at *; omega)
  have e2 : 20 * minmaxGet w.bw % U64 = 20 * minmaxGet w.bw :=
    Nat.mod_eq_of_lt (by unfold U32 U64 at *; omega)
  have e3 : 19 * w.last_bw % U64 = 19 * w.last_bw :=
    Nat.mod_eq_of_lt (by unfold U32 U64 at *; omega)
  rcases hst with hs | hs <;>
    simp only [gainStep, gainTransition, if_pos h, hs, e1, e2, e3, UP, DOWN] <;>
    norm_num <;> split <;> rfl

/-- C6 witness: the amended rule at a fresh connection state past warm-up. -/
theorem gain_rule_after_warmup_witness :
    (3 : Int) < 4 ∧
    (caohejingInitState.state = UP ∨ caohejingInitState.state = DOWN) ∧
    minmaxGet caohejingInitState.bw < U32 ∧ caohejingInitState.last_bw < U32 ∧
    ((gainStep 4 caohejingInitState).gain, (gainStep 4 caohejingInitState).state)
      = gainTransition caohejingInitState.state (minmaxGet caohejingInitState.bw)
          caohejingInitState.last_bw :=
  ⟨by decide, Or.inl rfl, by decide, by decide,
    gain_rule_after_warmup 4 caohejingInitState (by decide) (Or.inl rfl)
      (by decide) (by decide)⟩

/-- C7: `min_rtt_us` is non-increasing across calls; it is replaced by the
sample's `rtt_us` exactly when that value is positive and at most the current
minimum (the representability bound `min_rtt_us < 2^32` holds for every
reachable state, as the field is a `u32`), and any other sample — including
`rtt_us = 0` or negative — leaves it unchanged. -/
theorem min_rtt_non_increasing (cons : Bool) (s : Int) (w : Caohejing) (tp : Tcp)
    (rs : RateSample) :
    (congControl cons s w tp rs).2.1.min_rtt_us ≤ w.min_rtt_us ∧
    (¬ (0 < rs.rtt_us ∧ rs.rtt_us ≤ (w.min_rtt_us : Int)) →
      (congControl cons s w tp rs).2.1.min_rtt_us = w.min_rtt_us) ∧
    (0 < rs.rtt_us → rs.rtt_us ≤ (w.min_rtt_us : Int) → w.min_rtt_us < U32 →
      (congControl cons s w tp rs).2.1.min_rtt_us = rs.rtt_us.toNat) := by
  rw [congControl_min_rtt]
  have hr : (roundStep w tp rs).min_rtt_us = w.min_rtt_us := roundStep_min_rtt w tp rs
  simp only [minRttStep, apply_ite Caohejing.min_rtt_us, hr]
  by_cases hp : 0 < rs.rtt_us ∧ rs.rtt_us ≤ (w.min_rtt_us : Int)
  · rw [if_pos hp]
    obtain ⟨hp1, hp2⟩ := hp
    refine ⟨?_, fun hn => absurd ⟨hp1, hp2⟩ hn, fun _ _ h32 => ?_⟩
    · unfold u32of U32 at *
      omega
    · unfold u32of U32 at *
      omega
  · rw [if_neg hp]
    exact ⟨le_refl _, fun _ => rfl, fun ha hb _ => absurd ⟨ha, hb⟩ hp⟩

/-- C7 witness: the statement at the example call (RTT sample 100 µs against
the init sentinel). -/
theorem min_rtt_non_increasing_witness :
    (congControl false 0 caohejingInitState tpEx rsEx).2.1.min_rtt_us
        ≤ caohejingInitState.min_rtt_us ∧
    (¬ (0 < rsEx.rtt_us ∧ rsEx.rtt_us ≤ (caohejingInitState.min_rtt_us : Int)) →
      (congControl false 0 caohejingInitState tpEx rsEx).2.1.min_rtt_us
          = caohejingInitState.min_rtt_us) ∧
    (0 < rsEx.rtt_us → rsEx.rtt_us ≤ (caohejingInitState.min_rtt_us : Int) →
      caohejingInitState.min_rtt_us < U32 →
      (congControl false 0 caohejingInitState tpEx rsEx).2.1.min_rtt_us
          = rsEx.rtt_us.toNat) :=
  min_rtt_non_increasing false 0 caohejingInitState tpEx rsEx

/-- C8: with conservative mode enabled, on the Recovery entry edge (current
state Recovery, previous not Recovery) the call stores
`packets_in_flight + acked_sacked` as the cwnd (the clamp hypothesis keeps
the host cap out of the way, and the sum is a `u32`), restarts the round
marker from the current delivered counter, and sets packet conservation. -/
theorem recovery_entry_edge (s : Int) (w : Caohejing) (tp : Tcp) (rs : RateSample)
    (hca : tp.ca_state = TCP_CA_Recovery) (hprev : w.prev_ca_state ≠ TCP_CA_Recovery)
    (hfit : tp.packets_in_flight + rs.acked_sacked < U32)
    (hclamp : tp.packets_in_flight + rs.acked_sacked ≤ tp.snd_cwnd_clamp) :
    (congControl true s w tp rs).2.2.snd_cwnd
        = tp.packets_in_flight + rs.acked_sacked ∧
    (congControl true s w tp rs).2.1.packet_conservation = true ∧
    (congControl true s w tp rs).2.1.next_rtt_delivered = tp.delivered := by
  have hfly : (tp.packets_in_flight + rs.acked_sacked) % U32
      = tp.packets_in_flight + rs.acked_sacked := Nat.mod_eq_of_lt hfit
  refine ⟨?_, ?_, ?_⟩ <;>
    simp [congControl, conservationStep, hca, hprev, hfly, Nat.min_eq_left hclamp]

/-- C8 witness: the spec's scenario — entering Recovery with 10 packets in
flight and 2 acked+SACKed stores cwnd exactly 12 and sets conservation. -/
theorem recovery_entry_edge_witness :
    tpRecovery.ca_state = TCP_CA_Recovery ∧
    caohejingInitState.prev_ca_state ≠ TCP_CA_Recovery ∧
    tpRecovery.packets_in_flight + rsAcked2.acked_sacked = 12 ∧
    ((congControl true 0 caohejingInitState tpRecovery rsAcked2).2.2.snd_cwnd
        = tpRecovery.packets_in_flight + rsAcked2.acked_sacked ∧
     (congControl true 0 caohejingInitState tpRecovery rsAcked2).2.1.packet_conservation
        = true ∧
     (congControl true 0 caohejingInitState tpRecovery rsAcked2).2.1.next_rtt_delivered
        = tpRecovery.delivered) :=
  ⟨rfl, by decide, by decide,
    recovery_entry_edge 0 caohejingInitState tpRecovery rsAcked2 rfl (by decide)
      (by decide) (by decide)⟩

/-- C9: with conservative mode enabled, on the Recovery exit edge (previous
state Recovery or worse, current better than Recovery) the call stores
`max(prior_cwnd, packets_in_flight + acked_sacked)` as the cwnd, forces the
phase back to PROBE_UP with gain 320, and clears packet conservation. -/
theorem recovery_exit_edge (s : Int) (w : Caohejing) (tp : Tcp) (rs : RateSample)
    (hprev : TCP_CA_Recovery ≤ w.prev_ca_state) (hca : tp.ca_state < TCP_CA_Recovery)
    (hfit : tp.packets_in_flight + rs.acked_sacked < U32)
    (hclamp : max w.prior_cwnd (tp.packets_in_flight + rs.acked_sacked)
        ≤ tp.snd_cwnd_clamp) :
    (congControl true s w tp rs).2.2.snd_cwnd
        = max w.prior_cwnd (tp.packets_in_flight + rs.acked_sacked) ∧
    (congControl true s w tp rs).2.1.state = UP ∧
    (congControl true s w tp rs).2.1.gain = 320 ∧
    (congControl true s w tp rs).2.1.packet_conservation = false := by
  have hne : ¬ (tp.ca_state = TCP_CA_Recovery ∧ w.prev_ca_state ≠ TCP_CA_Recovery) := by
    unfold TCP_CA_Recovery at *
    omega
  have hfly : (tp.packets_in_flight + rs.acked_sacked) % U32
      = tp.packets_in_flight + rs.acked_sacked := Nat.mod_eq_of_lt hfit
  refine ⟨?_, ?_, ?_, ?_⟩ <;>
    simp [congControl, conservationStep, hne, hprev, hca, hfly,
      Nat.min_eq_left hclamp, CAL_UNIT, CAL_SCALE,
      gainStep_prior_cwnd, cycleStep_prior_cwnd, bwStep_prior_cwnd,
      minRttStep_prior_cwnd, roundStep_prior_cwnd,
      apply_ite Caohejing.prior_cwnd, ite_self]

/-- C9 witness: the spec's scenario — exiting Recovery with prior_cwnd 20,
5 packets in flight and 1 acked+SACKed restores cwnd 20, PROBE_UP, gain 320. -/
theorem recovery_exit_edge_witness :
    TCP_CA_Recovery ≤ wRecovered.prev_ca_state ∧
    tpEx.ca_state < TCP_CA_Recovery ∧
    max wRecovered.prior_cwnd (tpEx.packets_in_flight + rsAcked1.acked_sacked) = 20 ∧
    ((congControl true 0 wRecovered tpEx rsAcked1).2.2.snd_cwnd
        = max wRecovered.prior_cwnd (tpEx.packets_in_flight + rsAcked1.acked_sacked) ∧
     (congControl true 0 wRecovered tpEx rsAcked1).2.1.state = UP ∧
     (congControl true 0 wRecovered tpEx rsAcked1).2.1.gain = 320 ∧
     (congControl true 0 wRecovered tpEx rsAcked1).2.1.packet_conservation = false) :=
  ⟨by decide, by decide, by decide,
    recovery_exit_edge 0 wRecovered tpEx rsAcked1 (by decide) (by decide)
      (by decide) (by decide)⟩

/-- C10 (amended): the pacing computation is carried out in wrapping 64-bit
arithmetic; whenever none of the intermediates `bw·mss`, `bw·mss·gain` and
`(bw·mss·gain >> 8)·990000` exceeds `2^64` (and `bw` fits the `u32`
parameter), it agrees exactly with the spec's formula
`((bw·mss·gain) >> 8) · (USEC_PER_SEC·99/100) >> 24`, clamped to
`sk_max_pacing_rate`. -/
theorem pacing_rate_exact_formula (tp : Tcp) (bwv gain : Nat)
    (h0 : bwv < U32) (h1 : bwv * tp.mss_cache < U64)
    (h2 : bwv * tp.mss_cache * gain < U64)
    (h3 : bwv * tp.mss_cache * gain / 2 ^ 8 * 990000 < U64) :
    bwToPacingRate tp bwv gain
      = min (specRate bwv tp.mss_cache gain) tp.sk_max_pacing_rate := by
  have c1 : (1000000 / 100 * (100 - 1) : Nat) = 990000 := by norm_num
  have c2 : (1000000 * 99 / 100 : Nat) = 990000 := by norm_num
  simp only [bwToPacingRate, rateBytesPerSec, specRate, CAL_SCALE, BW_SCALE, c1, c2]
  rw [Nat.mod_eq_of_lt h0, Nat.mod_eq_of_lt h1, Nat.mod_eq_of_lt h2,
    Nat.mod_eq_of_lt h3]

/-- C10 witness: the spec's scenario bw=1000, mss=1460, gain=320. -/
theorem pacing_rate_exact_formula_witness :
    (1000 : Nat) < U32 ∧ 1000 * tpEx.mss_cache < U64 ∧
    1000 * tpEx.mss_cache * 320 < U64 ∧
    1000 * tpEx.mss_cache * 320 / 2 ^ 8 * 990000 < U64 ∧
    bwToPacingRate tpEx 1000 320
      = min (specRate 1000 tpEx.mss_cache 320) tpEx.sk_max_pacing_rate :=
  ⟨by decide, by decide, by decide, by decide,
    pacing_rate_exact_formula tpEx 1000 320 (by decide) (by decide) (by decide)
      (by decide)⟩

/-- C10 counterexample: the pacing arithmetic is 64-bit and wraps.  With
filter bandwidth `2^31`, a (type-level) MSS of `2^26` and gain 320, the
product `2^31 · 2^26 · 320 = 5·2^63` wraps to `2^63` modulo `2^64`, and the
code's pacing rate is 652835028992, while the spec's exact-integer formula
(clamped to the same unbounded cap) gives 10630044057600000. -/
theorem pacing_rate_wraps_64bit :
    bwToPacingRate tpWideMss 2147483648 320 = 652835028992 ∧
    min (specRate 2147483648 tpWideMss.mss_cache 320) tpWideMss.sk_max_pacing_rate
      = 10630044057600000 ∧
    (652835028992 : Nat) ≠ 10630044057600000 := by decide

end TcpCaohejing
